import Mathlib

/-!
Verification development for the pipe-notch generator's geometry kernel and
DXF export codec.

The TypeScript source computes over IEEE doubles with `Math.sin`, `Math.cos`,
`Math.tan`, `Math.sqrt`, `Math.atan2` and `Math.PI`.  We embed the code over
exact rationals, abstracting the transcendental primitives into a `Trig`
record passed to every function.  All control flow, accumulation and list
construction mirror the source line by line; claims whose truth depends on
analytic properties of the real trigonometric functions take those properties
as explicit hypotheses on the `Trig` record, discharged on concrete
computable instances in the witnesses.
-/

/-- Abstraction of the JavaScript `Math` trigonometric/radical primitives used
by the kernel.  In the source these are the IEEE-double `Math.sin` etc.; here
they are arbitrary rational functions so the embedding stays executable. -/
structure Trig where
  pi : ℚ
  sin : ℚ → ℚ
  cos : ℚ → ℚ
  tan : ℚ → ℚ
  sqrt : ℚ → ℚ
  atan2 : ℚ → ℚ → ℚ

/-- Structure `PipeParameters` from `src/types`: the immutable input record.
The source allows `d1`/`d2` to be missing or NaN (both falsy/NaN-guarded);
over ℚ those degenerate inputs are represented by the non-positive values the
same guard rejects. -/
structure PipeParameters where
  d1 : ℚ
  d2 : ℚ
  thickness : ℚ
  angle : ℚ
  offset : ℚ
  weldingGap : ℚ
  startAngle : ℚ
  paddingD1 : ℚ
  paddingD2 : ℚ
  calcByID : Bool
deriving DecidableEq

/-- Structure `Point2D`: a coordinate pair. -/
structure Point2D where
  x : ℚ
  y : ℚ
deriving DecidableEq

/-- Structure `Point3D`: a coordinate triple. -/
structure Point3D where
  x : ℚ
  y : ℚ
  z : ℚ
deriving DecidableEq

/-- Structure `GeometryResult` from `geometry-engine.ts`. -/
structure GeometryResult where
  vertices : List Point3D
  indices : List ℕ
  uvs : List ℚ
  isValid : Bool
  error : Option String
  contour2D : Option (List Point2D)
deriving DecidableEq

/-- The two template kinds accepted by `calculateUnrolledPoints` and
`generateDXF`: the string union `'pipe' | 'hole'` of the source. -/
inductive TemplateKind where
  | pipe
  | hole
deriving DecidableEq

/-- Function `degToRad` from `math-utils.ts`: `(degrees * Math.PI) / 180`. -/
def degToRad (T : Trig) (degrees : ℚ) : ℚ :=
  degrees * T.pi / 180

/-- Function `safeSmall` from `math-utils.ts` with its default `epsilon = 1e-6`
inlined (every call site in the kernel uses the default): a value of
magnitude below `1e-6` is replaced by `±1e-6`, preserving sign. -/
def safeSmall (val : ℚ) : ℚ :=
  if |val| < 1 / 1000000 then (if 0 ≤ val then 1 / 1000000 else -(1 / 1000000)) else val

/-- The intersection term of `calculateNotchGeometry` at angular sample `x`
of `segments`: `R1^2 - (R2_calc*sin(alpha) + offset)^2` with
`alpha = (x/segments)*2*pi` and `R2_calc = calcByID ? R2_outer : R2_inner`
(`geometry-engine.ts` lines 41 and 68-70, shared by the validity pre-pass
and the vertex loop). -/
def meshTermAt (T : Trig) (p : PipeParameters) (segments x : ℕ) : ℚ :=
  let R1 := p.d1 / 2
  let R2_calc := if p.calcByID then p.d2 / 2 else p.d2 / 2 - p.thickness
  let alpha := ((x : ℚ) / (segments : ℚ)) * 2 * T.pi
  R1 ^ 2 - (R2_calc * T.sin alpha + p.offset) ^ 2

/-- The full-sweep validity pre-pass of `calculateNotchGeometry`
(lines 67-75): true when some sample among the `segments+1` angular
positions has `term < -0.1`. -/
def meshNoIntersect (T : Trig) (p : PipeParameters) (segments : ℕ) : Bool :=
  (List.range (segments + 1)).any (fun x => decide (meshTermAt T p segments x < -(1 / 10)))

/-- The cut-face depth of `calculateNotchGeometry` at sample `x` (the `y = 0`
row, lines 84-93): clamp small negative `term` to 0, then
`(1/sT)*sqrt(term) + (R2_mesh*cos(alpha))/tT - weldingGap` with
`R2_mesh = R2_outer = d2/2`. -/
def meshCutDepth (T : Trig) (p : PipeParameters) (segments x : ℕ) : ℚ :=
  let term0 := meshTermAt T p segments x
  let term := if term0 < 0 then 0 else term0
  let alpha := ((x : ℚ) / (segments : ℚ)) * 2 * T.pi
  let sT := safeSmall (T.sin (degToRad T p.angle))
  let tT := safeSmall (T.tan (degToRad T p.angle))
  (1 / sT) * T.sqrt term + (p.d2 / 2 * T.cos alpha) / tT - p.weldingGap

/-- One grid vertex of `calculateNotchGeometry` (lines 77-158): row `y = 0`
is the cut face at `meshCutDepth`, row `y = 1` the flat far end at
`d1 + pipe2Length` with `pipe2Length = d1*1.5 + 100`; the local
cross-section point is mapped through the basis
`u = (-cosTheta, sinTheta, 0)`, `v = (0,0,1)`, `w = (sinTheta, cosTheta, 0)`. -/
def meshVertexAt (T : Trig) (p : PipeParameters) (segments y x : ℕ) : Point3D :=
  let alpha := ((x : ℚ) / (segments : ℚ)) * 2 * T.pi
  let sinAlpha := T.sin alpha
  let cosAlpha := T.cos alpha
  let pipe2Length := p.d1 * (3 / 2) + 100
  let len := if y = 0 then meshCutDepth T p segments x else p.d1 + pipe2Length
  let angleRad := degToRad T p.angle
  let sinTheta := T.sin angleRad
  let cosTheta := T.cos angleRad
  let ux := -cosTheta
  let uy := sinTheta
  let uz := (0 : ℚ)
  let vx := (0 : ℚ)
  let vy := (0 : ℚ)
  let vz := (1 : ℚ)
  let wx := sinTheta
  let wy := cosTheta
  let wz := (0 : ℚ)
  let radComp1 := p.d2 / 2 * cosAlpha
  let radComp2 := p.d2 / 2 * sinAlpha + p.offset
  { x := radComp1 * ux + radComp2 * vx + len * wx
    y := radComp1 * uy + radComp2 * vy + len * wy
    z := radComp1 * uz + radComp2 * vz + len * wz }

/-- The unrolled 2D contour accumulated during the `y = 0` row of the mesh
loop (lines 96-99): `x = (x/segments)*(2*pi*R2_outer)`, `y = cutDepth`. -/
def meshContour (T : Trig) (p : PipeParameters) (segments : ℕ) : List Point2D :=
  (List.range (segments + 1)).map (fun (i : ℕ) =>
    { x := ((i : ℚ) / (segments : ℚ)) * (2 * T.pi * (p.d2 / 2))
      y := meshCutDepth T p segments i })

/-- Function `calculateNotchGeometry` from `geometry-engine.ts`.  The diameter guard
`!d1 || !d2 || d1 <= 0 || d2 <= 0 || isNaN(d1) || isNaN(d2)` collapses over
ℚ to `d1 ≤ 0 ∨ d2 ≤ 0` (zero is falsy; NaN has no rational counterpart).
Then the full-sweep validity pre-pass, then the two-row vertex/uv grid, the
quad-grid index list, and the `y = 0` contour. -/
def calculateNotchGeometry (T : Trig) (p : PipeParameters) (segments : ℕ) : GeometryResult :=
  if p.d1 ≤ 0 ∨ p.d2 ≤ 0 then
    { vertices := [], indices := [], uvs := [], isValid := false
      error := some "Invalid Diameters.", contour2D := none }
  else if meshNoIntersect T p segments then
    { vertices := [], indices := [], uvs := [], isValid := false
      error := some "Geometry Error: Pipes do not intersect.", contour2D := none }
  else
    { vertices := (List.range 2).flatMap (fun y =>
        (List.range (segments + 1)).map (fun x => meshVertexAt T p segments y x))
      indices := (List.range segments).flatMap (fun x =>
        [x, x + 1, x + segments + 2, x, x + segments + 2, x + segments + 1])
      uvs := (List.range 2).flatMap (fun (y : ℕ) =>
        (List.range (segments + 1)).flatMap (fun (x : ℕ) => [(x : ℚ) / (segments : ℚ), (y : ℚ)]))
      isValid := true
      error := none
      contour2D := some (meshContour T p segments) }

/-- The intersection term of the engine's `calculatePipe2D`
(`geometry-engine.ts` line 230) at sample `i` of `steps`:
`R1^2 - (R2_calc*sin(effAngle) + offset)^2` with
`effAngle = (i/steps)*2*pi + startAngleRad` and
`R2_calc = calcByID ? R2_outer : R2_inner` (line 210). -/
def pipe2DTermAt (T : Trig) (p : PipeParameters) (steps i : ℕ) : ℚ :=
  let R1 := p.d1 / 2
  let R2_calc := if p.calcByID then p.d2 / 2 else p.d2 / 2 - p.thickness
  let effAngle := ((i : ℚ) / (steps : ℚ)) * 2 * T.pi + degToRad T p.startAngle
  R1 ^ 2 - (R2_calc * T.sin effAngle + p.offset) ^ 2

/-- One loop iteration of the engine's `calculatePipe2D` (lines 224-243):
`none` when the sample is skipped (`term <= -0.1`), otherwise the raw
(pre-normalization) unrolled point.  The drawn radius `R2_draw = d2/2`
fixes both the arc-length `x` and the `cos` depth component. -/
def pipe2DRawSample (T : Trig) (p : PipeParameters) (steps i : ℕ) : Option Point2D :=
  let R2_draw := p.d2 / 2
  let ratio := (i : ℚ) / (steps : ℚ)
  let effAngle := ratio * 2 * T.pi + degToRad T p.startAngle
  let x := ratio * (2 * T.pi * R2_draw)
  let term := pipe2DTermAt T p steps i
  let sT := safeSmall (T.sin (degToRad T p.angle))
  let tT := safeSmall (T.tan (degToRad T p.angle))
  let depth := fun (t : ℚ) =>
    (1 / sT) * T.sqrt t + R2_draw * T.cos effAngle / tT - p.weldingGap
  if term < 0 then
    if -(1 / 10) < term then some { x := x, y := depth 0 } else none
  else
    some { x := x, y := depth term }

/-- The raw point list accumulated by the engine's `calculatePipe2D` loop
before normalization. -/
def pipe2DRaw (T : Trig) (p : PipeParameters) (steps : ℕ) : List Point2D :=
  (List.range (steps + 1)).filterMap (pipe2DRawSample T p steps)

/-- The running-minimum scan of both normalization passes
(`minY = Infinity; if (p.y < minY) minY = p.y`); `none` models the untouched
`Infinity` sentinel of an empty list. -/
def minYFold (points : List Point2D) : Option ℚ :=
  points.foldl (fun acc q =>
    match acc with
    | none => some q.y
    | some m => if q.y < m then some q.y else some m) none

/-- The shared normalization tail of `calculatePipe2D` / `calculateHole2D`
(lines 245-259 and 314-327): if `minY` stayed `Infinity` return `[]`,
otherwise rewrite every `y` as `y - minY + padding`. -/
def normalizePoints (padding : ℚ) (points : List Point2D) : List Point2D :=
  match minYFold points with
  | none => []
  | some m => points.map (fun q => { x := q.x, y := q.y - m + padding })

/-- The engine's `calculatePipe2D` (lines 202-260).  The source's
`padding = paddingD2 || 0` is the identity over ℚ (`0 || 0` is `0`). -/
def calculatePipe2D (T : Trig) (p : PipeParameters) (steps : ℕ) : List Point2D :=
  normalizePoints p.paddingD2 (pipe2DRaw T p steps)

/-- One loop iteration of the engine's `calculateHole2D` (lines 280-312):
intersects the branch cross-section of radius `R2_hole = R2_inner`
(unconditionally, line 271) with the main-pipe surface and unrolls the hit
point; `none` when `term < 0` (no clamp band here). -/
def hole2DSample (T : Trig) (p : PipeParameters) (steps i : ℕ) : Option Point2D :=
  let R1 := p.d1 / 2
  let R2_hole := p.d2 / 2 - p.thickness
  let angleRad := degToRad T p.angle
  let alpha := ((i : ℚ) / (steps : ℚ)) * 2 * T.pi
  let r2Sin := R2_hole * T.sin alpha
  let r2Cos := R2_hole * T.cos alpha
  let C1 := r2Cos * T.cos angleRad
  let C2 := r2Sin + p.offset
  let term := R1 * R1 - C2 * C2
  if term < 0 then none
  else
    let t := (T.sqrt term + C1) / safeSmall (T.sin angleRad)
    let x3d := t * T.sin angleRad - r2Cos * T.cos angleRad
    let z3d := r2Sin + p.offset
    let y3d := t * T.cos angleRad + r2Cos * T.sin angleRad
    let phi0 := T.atan2 z3d x3d
    let phi := if phi0 < 0 then phi0 + 2 * T.pi else phi0
    let phiShift0 := phi - T.pi
    let phiShift := if phiShift0 < 0 then phiShift0 + 2 * T.pi else phiShift0
    some { x := R1 * phiShift, y := y3d }

/-- The raw point list of the engine's `calculateHole2D` loop before
normalization. -/
def hole2DRaw (T : Trig) (p : PipeParameters) (steps : ℕ) : List Point2D :=
  (List.range (steps + 1)).filterMap (hole2DSample T p steps)

/-- The engine's `calculateHole2D` (lines 262-328); `padding = paddingD1 || 0`
is again the identity over ℚ. -/
def calculateHole2D (T : Trig) (p : PipeParameters) (steps : ℕ) : List Point2D :=
  normalizePoints p.paddingD1 (hole2DRaw T p steps)

/-- Function `calculateUnrolledPoints` (lines 191-200): dispatch on the template kind
with the hardcoded export resolution `steps = 360`. -/
def calculateUnrolledPoints (T : Trig) (p : PipeParameters) (type : TemplateKind) : List Point2D :=
  match type with
  | .pipe => calculatePipe2D T p 360
  | .hole => calculateHole2D T p 360

/-- Modelled from the spec for the refinement claim about radius selection:
`R2_effective` chosen per `calcByID` — `R2_outer = d2/2` when true,
`R2_inner = R2_outer - thickness` when false. -/
def specSelectedR2 (p : PipeParameters) : ℚ :=
  if p.calcByID then p.d2 / 2 else p.d2 / 2 - p.thickness

/-- Modelled from the spec for the refinement claim about radius selection:
the generic intersection term `R1^2 - (r*sin(ang) + offset)^2` at an
arbitrary effective radius `r` and angular argument `ang`. -/
def specTermWith (T : Trig) (p : PipeParameters) (r ang : ℚ) : ℚ :=
  (p.d1 / 2) ^ 2 - (r * T.sin ang + p.offset) ^ 2

/-- The intersection term of the DXF generator's own `calculatePipe2D`
(`part_004` lines 139-147): `R2_calc` is hardcoded to `R2_outer = d2/2`
("As per legacy 'checked' default"), with `steps = 360`. -/
def dxfPipe2DTermAt (T : Trig) (p : PipeParameters) (i : ℕ) : ℚ :=
  let R1 := p.d1 / 2
  let R2_calc := p.d2 / 2
  let effAngle := ((i : ℚ) / (360 : ℚ)) * 2 * T.pi + degToRad T p.startAngle
  R1 ^ 2 - (R2_calc * T.sin effAngle + p.offset) ^ 2

/-- One loop iteration of the DXF generator's `calculatePipe2D`
(`part_004` lines 113-160): identical to the engine's loop except that the
intersection radius is always the outer one. -/
def dxfPipe2DSample (T : Trig) (p : PipeParameters) (i : ℕ) : Option Point2D :=
  let R2_draw := p.d2 / 2
  let ratio := (i : ℚ) / (360 : ℚ)
  let effAngle := ratio * 2 * T.pi + degToRad T p.startAngle
  let x := ratio * (2 * T.pi * R2_draw)
  let term := dxfPipe2DTermAt T p i
  let sT := safeSmall (T.sin (degToRad T p.angle))
  let tT := safeSmall (T.tan (degToRad T p.angle))
  let depth := fun (t : ℚ) =>
    (1 / sT) * T.sqrt t + R2_draw * T.cos effAngle / tT - p.weldingGap
  if term < 0 then
    if -(1 / 10) < term then some { x := x, y := depth 0 } else none
  else
    some { x := x, y := depth term }

/-- The DXF generator's `calculatePipe2D` (`part_004` lines 113-160): raw,
un-normalized points at 360 steps. -/
def dxfCalculatePipe2D (T : Trig) (p : PipeParameters) : List Point2D :=
  (List.range 361).filterMap (dxfPipe2DSample T p)

/-- The DXF generator's `calculateHole2D` (`part_004` lines 162-208): its
loop body is line-for-line the same computation as the engine's
`calculateHole2D` sample (radius `R2_inner`, skip when `term < 0`, unroll via
`atan2`), without the final normalization pass. -/
def dxfCalculateHole2D (T : Trig) (p : PipeParameters) : List Point2D :=
  (List.range 361).filterMap (hole2DSample T p 360)

/-- One emitted record of the `DxfWriter` part list (`part_005`): the
`POLYLINE` opener carrying group code 70, a `VERTEX` with coordinates, or the
`SEQEND` terminator.  Each constructor stands for the exact string template
pushed by the source (`"0\nPOLYLINE\n8\n0\n66\n1\n70\n..."` etc.). -/
inductive DxfPart where
  | polyStart (flag70 : ℕ)
  | vert (x y : ℚ)
  | seqEnd
deriving DecidableEq

/-- The closing-vertex distance test of `DxfWriter.addPolyline`
(`part_005` lines 27-36): the source compares
`Math.sqrt(dx^2 + dy^2) > 0.001`; over exact numbers that is equivalent to
the square-free comparison `dx^2 + dy^2 > 0.001^2` used here. -/
def needsClosingVert (f l : Point2D) : Bool :=
  decide ((f.x - l.x) ^ 2 + (f.y - l.y) ^ 2 > (1 / 1000) ^ 2)

/-- Method `DxfWriter.addPolyline` (`part_005` lines 15-40): nothing for an empty
point list; otherwise the `POLYLINE` opener with group code 70 set to
`closed ? 1 : 0`, one `VERTEX` per point, a duplicate of the first vertex
when `closed` and the first/last distance exceeds `0.001`, then `SEQEND`. -/
def addPolyline (points : List Point2D) (closed : Bool) : List DxfPart :=
  if points = [] then []
  else
    [DxfPart.polyStart (if closed then 1 else 0)]
      ++ points.map (fun q => DxfPart.vert q.x q.y)
      ++ (if closed then
            match points.head?, points.getLast? with
            | some f, some l =>
                if needsClosingVert f l then [DxfPart.vert f.x f.y] else []
            | _, _ => []
          else [])
      ++ [DxfPart.seqEnd]

/-- Number of `VERTEX` records in an emitted part list. -/
def countVerts (parts : List DxfPart) : ℕ :=
  parts.countP (fun part => match part with
    | DxfPart.vert _ _ => true
    | _ => false)

/-- Helper `getHeader()` of `generateDXF` (`part_004`). -/
def dxfHeader : String :=
  "0\nSECTION\n2\nENTITIES\n"

/-- Helper `getFooter()` of `generateDXF`. -/
def dxfFooter : String :=
  "0\nENDSEC\n0\nEOF\n"

/-- Helper `getPolyline(closed)` of `generateDXF`. -/
def dxfPolylineStr (closed : Bool) : String :=
  "0\nPOLYLINE\n8\n0\n66\n1\n70\n" ++ (if closed then "1" else "0") ++ "\n"

/-- Helper `getVertex(x, y)` of `generateDXF`; `fmt` models `Number.toFixed(4)`. -/
def dxfVertexStr (fmt : ℚ → String) (x y : ℚ) : String :=
  "0\nVERTEX\n8\n0\n10\n" ++ fmt x ++ "\n20\n" ++ fmt y ++ "\n30\n0.0\n"

/-- Helper `getSeqEnd()` of `generateDXF`. -/
def dxfSeqEndStr : String :=
  "0\nSEQEND\n"

/-- Spread `Math.max(...)` over the `y` coordinates, as used by `generateDXF` on
lists already guarded non-empty (the `0` default is never reached there
because the guarded lists are non-empty; the source would give `-Infinity`). -/
def maxYOf (points : List Point2D) : ℚ :=
  match points with
  | [] => 0
  | q :: rest => rest.foldl (fun m r => max m r.y) q.y

/-- Spread `Math.min(...)` over the `y` coordinates, same guard discipline. -/
def minYOf (points : List Point2D) : ℚ :=
  match points with
  | [] => 0
  | q :: rest => rest.foldl (fun m r => min m r.y) q.y

/-- The 2D point list `generateDXF` settles on per template kind
(`part_004` lines 19-42): for `'pipe'` its own `calculatePipe2D`, for
`'hole'` its own `calculateHole2D`.  (The intermediate `contour2D` shift for
`'pipe'` is dead code — immediately overwritten by `calculatePipe2D`.) -/
def dxfPoints (T : Trig) (type : TemplateKind) (p : PipeParameters) : List Point2D :=
  match type with
  | .pipe => dxfCalculatePipe2D T p
  | .hole => dxfCalculateHole2D T p

/-- The entity body `generateDXF` builds between header and footer once all
guards have passed (`part_004` lines 46-108): the shifted contour polyline
(open for `'pipe'` with the two sheet-closing vertices, closed for `'hole'`),
and for `'hole'` the additional outer frame rectangle. -/
def dxfBody (fmt : ℚ → String) (T : Trig) (type : TemplateKind) (p : PipeParameters)
    (points : List Point2D) : String :=
  let pad := (match type with | .pipe => p.paddingD2 | .hole => p.paddingD1)
  match type with
  | .pipe =>
      let maxY := maxYOf points
      let shifted := points.map (fun q => { x := q.x, y := maxY - q.y + pad : Point2D })
      let lastX := ((shifted.getLast?).getD { x := 0, y := 0 }).x
      dxfPolylineStr false
        ++ String.join (shifted.map (fun q => dxfVertexStr fmt q.x q.y))
        ++ dxfVertexStr fmt lastX 0
        ++ dxfVertexStr fmt 0 0
        ++ dxfSeqEndStr
  | .hole =>
      let minY := minYOf points
      let shifted := points.map (fun q => { x := q.x, y := q.y - minY + pad : Point2D })
      let maxY := maxYOf shifted + pad
      let maxX := T.pi * p.d1
      dxfPolylineStr true
        ++ String.join (shifted.map (fun q => dxfVertexStr fmt q.x q.y))
        ++ dxfSeqEndStr
        ++ dxfPolylineStr true
        ++ dxfVertexStr fmt 0 0
        ++ dxfVertexStr fmt maxX 0
        ++ dxfVertexStr fmt maxX maxY
        ++ dxfVertexStr fmt 0 maxY
        ++ dxfSeqEndStr

/-- Function `generateDXF` (`part_004` lines 8-111): for `'pipe'` first run
`calculateNotchGeometry` at 360 segments and bail out to `""` when it is
invalid or carries no contour; for either kind bail out to `""` when the
recomputed 2D point list is empty; otherwise emit header, entity body and
footer.  (The stray third argument the source passes to
`calculateNotchGeometry` does not exist in that function's signature and is
ignored.) -/
def generateDXF (fmt : ℚ → String) (T : Trig) (type : TemplateKind) (p : PipeParameters) : String :=
  match type with
  | .pipe =>
      let result := calculateNotchGeometry T p 360
      if !result.isValid || result.contour2D.isNone then ""
      else
        let points := dxfCalculatePipe2D T p
        if points = [] then ""
        else dxfHeader ++ (dxfBody fmt T .pipe p points ++ dxfFooter)
  | .hole =>
      let points := dxfCalculateHole2D T p
      if points = [] then ""
      else dxfHeader ++ (dxfBody fmt T .hole p points ++ dxfFooter)

/-! ### Helper lemmas and concrete instances for witnesses -/

/-- A degenerate but fully computable trig instance used by witnesses:
every transcendental primitive returns 0 (and `sqrt` is the identity). -/
def zeroTrig : Trig :=
  { pi := 0, sin := fun _ => 0, cos := fun _ => 0, tan := fun _ => 0
    sqrt := fun q => q, atan2 := fun _ _ => 0 }

/-- The application's default parameter set (`useParamStore` defaults). -/
def defaultParams : PipeParameters :=
  { d1 := 100, d2 := 50, thickness := 2, angle := 45, offset := 0, weldingGap := 0
    startAngle := 0, paddingD1 := 20, paddingD2 := 20, calcByID := true }

/-- Default parameters with a zero main diameter (rejected by the guard). -/
def invalidParams : PipeParameters :=
  { defaultParams with d1 := 0 }

lemma length_flatMap_const {α β : Type} (l : List α) (f : α → List β) (k : ℕ)
    (h : ∀ a ∈ l, (f a).length = k) : (l.flatMap f).length = l.length * k := by
  induction l with
  | nil => simp
  | cons a t ih =>
      simp only [List.flatMap_cons, List.length_append, List.length_cons]
      rw [h a (List.mem_cons_self a t), ih (fun b hb => h b (List.mem_cons_of_mem a hb))]
      ring

lemma meshNoIntersect_iff (T : Trig) (p : PipeParameters) (segments : ℕ) :
    meshNoIntersect T p segments = true ↔
      ∃ x, x < segments + 1 ∧ meshTermAt T p segments x < -(1 / 10) := by
  unfold meshNoIntersect
  rw [List.any_eq_true]
  constructor
  · rintro ⟨x, hx, hdec⟩
    exact ⟨x, List.mem_range.mp hx, of_decide_eq_true hdec⟩
  · rintro ⟨x, hx, hlt⟩
    exact ⟨x, List.mem_range.mpr hx, decide_eq_true hlt⟩

/-! ### C1 -/

/-- C1.  For every `PipeParameters` with `d1 > 0`, `d2 > 0`, `0 < angle ≤ 90`,
every `segments ≥ 1`, and inputs whose angular samples all satisfy
`term ≥ -0.1` (the claim's offset-smallness condition, stated directly as the
sample bound it abbreviates), `calculateNotchGeometry` returns a valid result
with `2*(segments+1)` vertices and `6*segments` indices. -/
theorem notchGeometry_valid_with_lengths (T : Trig) (p : PipeParameters) (segments : ℕ)
    (hd1 : 0 < p.d1) (hd2 : 0 < p.d2) (hang0 : 0 < p.angle) (hang90 : p.angle ≤ 90)
    (hseg : 1 ≤ segments)
    (hterm : ∀ x, x < segments + 1 → -(1 / 10) ≤ meshTermAt T p segments x) :
    (calculateNotchGeometry T p segments).isValid = true ∧
    (calculateNotchGeometry T p segments).vertices.length = 2 * (segments + 1) ∧
    (calculateNotchGeometry T p segments).indices.length = 6 * segments := by
  have hguard : ¬(p.d1 ≤ 0 ∨ p.d2 ≤ 0) := by
    push_neg
    exact ⟨hd1, hd2⟩
  have hni : ¬(meshNoIntersect T p segments = true) := by
    intro hn
    obtain ⟨x, hx, hlt⟩ := (meshNoIntersect_iff T p segments).mp hn
    exact absurd (hterm x hx) (not_le.mpr hlt)
  unfold calculateNotchGeometry
  rw [if_neg hguard, if_neg hni]
  refine ⟨rfl, ?_, ?_⟩
  · dsimp only
    rw [show List.range 2 = [0, 1] from rfl]
    simp only [List.flatMap_cons, List.flatMap_nil, List.length_append,
      List.length_map, List.length_range, List.length_nil]
    ring
  · dsimp only
    rw [length_flatMap_const (List.range segments)
      (fun x => [x, x + 1, x + segments + 2, x, x + segments + 2, x + segments + 1]) 6
      (fun a _ => rfl), List.length_range]
    ring

/-- Witness for C1 at the store's default parameters, `segments = 2`, and the
all-zero trig instance. -/
theorem notchGeometry_valid_with_lengths_witness :
    (calculateNotchGeometry zeroTrig defaultParams 2).isValid = true ∧
    (calculateNotchGeometry zeroTrig defaultParams 2).vertices.length = 2 * (2 + 1) ∧
    (calculateNotchGeometry zeroTrig defaultParams 2).indices.length = 6 * 2 :=
  notchGeometry_valid_with_lengths zeroTrig defaultParams 2
    (by with_unfolding_all decide) (by with_unfolding_all decide)
    (by with_unfolding_all decide) (by with_unfolding_all decide)
    (by with_unfolding_all decide) (by with_unfolding_all decide)

/-! ### C2 -/

/-- C2.  `calculateNotchGeometry` is invalid exactly in two cases: the
diameter guard (`d1` or `d2` falsy/non-positive; NaN and a missing field have
no rational counterpart and are absorbed by the same guard), reported as
"Invalid Diameters.", and a full-sweep sample with `term < -0.1`, reported
with the exact message "Geometry Error: Pipes do not intersect." (which
contains the claimed substring "do not intersect"); no other input yields an
invalid result.  The guard takes precedence, firing before any trigonometric
sample is consulted. -/
theorem notchGeometry_invalid_characterization (T : Trig) (p : PipeParameters) (segments : ℕ) :
    ((calculateNotchGeometry T p segments).isValid = false ↔
      (p.d1 ≤ 0 ∨ p.d2 ≤ 0) ∨ ∃ x, x < segments + 1 ∧ meshTermAt T p segments x < -(1 / 10)) ∧
    ((p.d1 ≤ 0 ∨ p.d2 ≤ 0) →
      (calculateNotchGeometry T p segments).error = some "Invalid Diameters.") ∧
    (0 < p.d1 → 0 < p.d2 →
      (∃ x, x < segments + 1 ∧ meshTermAt T p segments x < -(1 / 10)) →
      (calculateNotchGeometry T p segments).error =
        some "Geometry Error: Pipes do not intersect.") := by
  refine ⟨⟨?_, ?_⟩, ?_, ?_⟩
  · intro h
    by_cases hg : p.d1 ≤ 0 ∨ p.d2 ≤ 0
    · exact Or.inl hg
    · right
      by_cases hn : meshNoIntersect T p segments = true
      · exact (meshNoIntersect_iff T p segments).mp hn
      · exfalso
        unfold calculateNotchGeometry at h
        rw [if_neg hg, if_neg hn] at h
        simp at h
  · intro h
    unfold calculateNotchGeometry
    rcases h with hg | hx
    · rw [if_pos hg]
    · by_cases hg : p.d1 ≤ 0 ∨ p.d2 ≤ 0
      · rw [if_pos hg]
      · rw [if_neg hg, if_pos ((meshNoIntersect_iff T p segments).mpr hx)]
  · intro hg
    unfold calculateNotchGeometry
    rw [if_pos hg]
  · intro h1 h2 hx
    unfold calculateNotchGeometry
    rw [if_neg (by push_neg; exact ⟨h1, h2⟩), if_pos ((meshNoIntersect_iff T p segments).mpr hx)]

/-- Witness for C2 at a zero main diameter (the guard case, also checking the
full characterization instance is usable). -/
theorem notchGeometry_invalid_characterization_witness :
    ((calculateNotchGeometry zeroTrig invalidParams 2).isValid = false ↔
      (invalidParams.d1 ≤ 0 ∨ invalidParams.d2 ≤ 0) ∨
        ∃ x, x < 2 + 1 ∧ meshTermAt zeroTrig invalidParams 2 x < -(1 / 10)) ∧
    ((invalidParams.d1 ≤ 0 ∨ invalidParams.d2 ≤ 0) →
      (calculateNotchGeometry zeroTrig invalidParams 2).error = some "Invalid Diameters.") ∧
    (0 < invalidParams.d1 → 0 < invalidParams.d2 →
      (∃ x, x < 2 + 1 ∧ meshTermAt zeroTrig invalidParams 2 x < -(1 / 10)) →
      (calculateNotchGeometry zeroTrig invalidParams 2).error =
        some "Geometry Error: Pipes do not intersect.") :=
  notchGeometry_invalid_characterization zeroTrig invalidParams 2

/-! ### C3 -/

/-- C3.  Every invalid `GeometryResult` carries empty `vertices`, `indices`
and `uvs` and a non-null error; contrapositively, any result exposing
geometry data is valid — the engine never returns a partial mesh. -/
theorem notchGeometry_invalid_is_empty (T : Trig) (p : PipeParameters) (segments : ℕ)
    (h : (calculateNotchGeometry T p segments).isValid = false) :
    (calculateNotchGeometry T p segments).vertices = [] ∧
    (calculateNotchGeometry T p segments).indices = [] ∧
    (calculateNotchGeometry T p segments).uvs = [] ∧
    (calculateNotchGeometry T p segments).error ≠ none := by
  unfold calculateNotchGeometry at h ⊢
  split_ifs at h ⊢ <;> simp_all

/-- Witness for C3 at a zero main diameter. -/
theorem notchGeometry_invalid_is_empty_witness :
    (calculateNotchGeometry zeroTrig invalidParams 2).vertices = [] ∧
    (calculateNotchGeometry zeroTrig invalidParams 2).indices = [] ∧
    (calculateNotchGeometry zeroTrig invalidParams 2).uvs = [] ∧
    (calculateNotchGeometry zeroTrig invalidParams 2).error ≠ none :=
  notchGeometry_invalid_is_empty zeroTrig invalidParams 2 (by with_unfolding_all decide)

/-! ### C4 -/

lemma minYFold_step_shift (c : ℚ) (acc : Option ℚ) (q : Point2D) :
    (match Option.map (· + c) acc with
      | none => some (q.y + c)
      | some m => if q.y + c < m then some (q.y + c) else some m)
    = Option.map (· + c)
        (match acc with
          | none => some q.y
          | some m => if q.y < m then some q.y else some m) := by
  cases acc with
  | none => rfl
  | some m =>
      show (if q.y + c < m + c then some (q.y + c) else some (m + c))
          = Option.map (· + c) (if q.y < m then some q.y else some m)
      by_cases hlt : q.y < m
      · rw [if_pos hlt, if_pos (add_lt_add_right hlt c)]
        rfl
      · rw [if_neg hlt, if_neg (fun hc => hlt (lt_of_add_lt_add_right hc))]
        rfl

lemma minYFold_go_shift (c : ℚ) :
    ∀ (pts : List Point2D) (acc : Option ℚ),
      ((pts.map (fun q => ({ x := q.x, y := q.y + c } : Point2D))).foldl
        (fun acc q => match acc with
          | none => some q.y
          | some m => if q.y < m then some q.y else some m)
        (Option.map (· + c) acc))
      = Option.map (· + c)
          (pts.foldl (fun acc q => match acc with
            | none => some q.y
            | some m => if q.y < m then some q.y else some m) acc) := by
  intro pts
  induction pts with
  | nil => intro acc; rfl
  | cons q t ih =>
      intro acc
      simp only [List.map_cons, List.foldl_cons]
      rw [minYFold_step_shift c acc q]
      exact ih _

lemma minYFold_map_shift (pts : List Point2D) (c : ℚ) :
    minYFold (pts.map (fun q => ({ x := q.x, y := q.y + c } : Point2D)))
      = Option.map (· + c) (minYFold pts) := by
  unfold minYFold
  have h := minYFold_go_shift c pts none
  simpa using h

lemma normalizePoints_min (padding : ℚ) (pts : List Point2D)
    (h : normalizePoints padding pts ≠ []) :
    minYFold (normalizePoints padding pts) = some padding := by
  unfold normalizePoints at h ⊢
  cases hm : minYFold pts with
  | none => rw [hm] at h; exact absurd rfl h
  | some m =>
      show minYFold (pts.map (fun q => ({ x := q.x, y := q.y - m + padding } : Point2D)))
          = some padding
      have hfn : (fun q : Point2D => ({ x := q.x, y := q.y - m + padding } : Point2D))
          = (fun q : Point2D => ({ x := q.x, y := q.y + (padding - m) } : Point2D)) := by
        funext q
        simp only [Point2D.mk.injEq, true_and]
        ring
      rw [hfn, minYFold_map_shift, hm]
      show some (m + (padding - m)) = some padding
      congr 1
      ring

/-- C4.  For both template kinds, whenever `calculateUnrolledPoints` returns a
non-empty point list, the engine's own running minimum of the `y` values is
exactly the corresponding padding (`paddingD2` for `'pipe'`, `paddingD1` for
`'hole'`; the source's `padding || 0` fallback is the identity over ℚ, and
exact equality implies the claimed `1e-6` tolerance); and when every angular
sample was skipped the function returns the empty list instead of failing. -/
theorem unrolledPoints_min_is_padding (T : Trig) (p : PipeParameters) (type : TemplateKind) :
    (calculateUnrolledPoints T p type ≠ [] →
      minYFold (calculateUnrolledPoints T p type) =
        some (match type with
          | TemplateKind.pipe => p.paddingD2
          | TemplateKind.hole => p.paddingD1)) ∧
    ((match type with
        | TemplateKind.pipe => pipe2DRaw T p 360
        | TemplateKind.hole => hole2DRaw T p 360) = [] →
      calculateUnrolledPoints T p type = []) := by
  cases type with
  | pipe =>
      refine ⟨fun h => ?_, fun h => ?_⟩
      · exact normalizePoints_min p.paddingD2 (pipe2DRaw T p 360) h
      · have h2 : pipe2DRaw T p 360 = [] := h
        show calculatePipe2D T p 360 = []
        unfold calculatePipe2D
        rw [h2]
        rfl
  | hole =>
      refine ⟨fun h => ?_, fun h => ?_⟩
      · exact normalizePoints_min p.paddingD1 (hole2DRaw T p 360) h
      · have h2 : hole2DRaw T p 360 = [] := h
        show calculateHole2D T p 360 = []
        unfold calculateHole2D
        rw [h2]
        rfl

/-- Witness for C4 at the default parameters and the all-zero trig instance
(where the pipe contour is non-empty and normalizes to `minY = paddingD2 = 20`). -/
theorem unrolledPoints_min_is_padding_witness :
    ((calculateUnrolledPoints zeroTrig defaultParams TemplateKind.pipe ≠ [] →
      minYFold (calculateUnrolledPoints zeroTrig defaultParams TemplateKind.pipe) =
        some (match TemplateKind.pipe with
          | TemplateKind.pipe => defaultParams.paddingD2
          | TemplateKind.hole => defaultParams.paddingD1)) ∧
    ((match TemplateKind.pipe with
        | TemplateKind.pipe => pipe2DRaw zeroTrig defaultParams 360
        | TemplateKind.hole => hole2DRaw zeroTrig defaultParams 360) = [] →
      calculateUnrolledPoints zeroTrig defaultParams TemplateKind.pipe = [])) ∧
    calculateUnrolledPoints zeroTrig defaultParams TemplateKind.pipe ≠ [] :=
  ⟨unrolledPoints_min_is_padding zeroTrig defaultParams TemplateKind.pipe,
    by set_option maxRecDepth 100000 in with_unfolding_all decide⟩

/-! ### C5 -/

/-- A computable trig instance with `sin` the identity and a rational
stand-in for pi, used to exhibit concrete numeric differences. -/
def idTrig : Trig :=
  { pi := 3, sin := fun q => q, cos := fun q => q, tan := fun q => q
    sqrt := fun q => q, atan2 := fun z x => z + x }

/-- Default parameters with `calcByID := false` (so the selector rule picks
the inner radius `d2/2 - thickness = 23`, not the outer `25`). -/
def innerModeParams : PipeParameters :=
  { defaultParams with calcByID := false }

/-- C5 counterexample.  The claim fails on the DXF generator's own
branch-template pass: at `calcByID = false`, `thickness = 2`, sample 90 of
360 (where the sample sine is non-zero), its intersection term uses the
outer radius `25` instead of the selector value `23`, so it differs from the
spec's `R2_effective` term. -/
theorem dxfPipe2D_selector_counterexample :
    ¬ (dxfPipe2DTermAt idTrig innerModeParams 90 =
        specTermWith idTrig innerModeParams (specSelectedR2 innerModeParams)
          (((90 : ℕ) : ℚ) / (360 : ℚ) * 2 * idTrig.pi +
            degToRad idTrig innerModeParams.startAngle)) := by
  with_unfolding_all decide

/-- C5 (amended).  The `calcByID` selector rule holds for the geometry
engine's mesh pass and its unrolled branch pass, and the drawn geometry
(the unrolled arc length) always uses the outer radius; but the DXF
generator's internal branch pass (`part_004`) always computes its
intersection term with the outer radius `d2/2`, regardless of `calcByID`. -/
theorem radiusSelection_amended (T : Trig) (p : PipeParameters)
    (segments x steps i j : ℕ) :
    meshTermAt T p segments x =
      specTermWith T p (specSelectedR2 p) (((x : ℚ) / (segments : ℚ)) * 2 * T.pi) ∧
    pipe2DTermAt T p steps i =
      specTermWith T p (specSelectedR2 p)
        (((i : ℚ) / (steps : ℚ)) * 2 * T.pi + degToRad T p.startAngle) ∧
    dxfPipe2DTermAt T p j =
      specTermWith T p (p.d2 / 2)
        (((j : ℚ) / (360 : ℚ)) * 2 * T.pi + degToRad T p.startAngle) ∧
    (meshContour T p segments).map Point2D.x =
      (List.range (segments + 1)).map
        (fun (k : ℕ) => ((k : ℚ) / (segments : ℚ)) * (2 * T.pi * (p.d2 / 2))) ∧
    (∀ q : Point2D, pipe2DRawSample T p steps i = some q →
      q.x = ((i : ℚ) / (steps : ℚ)) * (2 * T.pi * (p.d2 / 2))) := by
  refine ⟨rfl, rfl, rfl, ?_, ?_⟩
  · unfold meshContour
    rw [List.map_map]
    rfl
  · intro q hq
    unfold pipe2DRawSample at hq
    dsimp only at hq
    split_ifs at hq <;>
      (simp only [Option.some.injEq] at hq; rw [← hq])

/-! ### C6 -/

lemma notchError_noIntersect_iff (T : Trig) (p : PipeParameters) (segments : ℕ)
    (hd1 : 0 < p.d1) (hd2 : 0 < p.d2) :
    (calculateNotchGeometry T p segments).error =
        some "Geometry Error: Pipes do not intersect." ↔
      meshNoIntersect T p segments = true := by
  unfold calculateNotchGeometry
  rw [if_neg (by push_neg; exact ⟨hd1, hd2⟩)]
  by_cases hn : meshNoIntersect T p segments = true
  · rw [if_pos hn]
    simp [hn]
  · rw [if_neg hn]
    simp [hn]

lemma offset_monotone_alg (D u o o' : ℚ) (ho : 0 ≤ o) (hoo : o < o')
    (h : D - (u + o) ^ 2 < -(1 / 10)) :
    (0 ≤ u + o → D - (u + o') ^ 2 < -(1 / 10)) ∧
    (u + o < 0 → D - (-u + o') ^ 2 < -(1 / 10)) := by
  constructor
  · intro hc
    have hkey : (u + o) ^ 2 ≤ (u + o') ^ 2 := by
      nlinarith [mul_nonneg (by linarith : (0 : ℚ) ≤ o' - o)
        (by linarith : (0 : ℚ) ≤ (u + o) + (u + o'))]
    linarith
  · intro hc
    have hkey : (u + o) ^ 2 ≤ (-u + o') ^ 2 := by
      nlinarith [mul_nonneg (by linarith : (0 : ℚ) ≤ -2 * u + o' - o)
        (by linarith : (0 : ℚ) ≤ o + o')]
    linarith

/-- C6.  For fixed diameters, thickness, angle, mode and segment count, and
sine samples that are symmetric across the sweep (true of the real sine over
the sampled full revolution, supplied as a hypothesis on the abstract trig):
if the engine reports non-intersection at a non-negative `offset0`, it also
reports it at every larger `offset1`; and every offset at least `d1/2 + 1`
(in particular everything sufficiently far past `d1/2`) is rejected, given
additionally that the first sample's sine vanishes (true of the real sine at
angle 0). -/
theorem noIntersect_monotone_in_offset (T : Trig) (p : PipeParameters) (segments : ℕ)
    (o0 o1 : ℚ) (hd1 : 0 < p.d1) (hd2 : 0 < p.d2) (h0 : 0 ≤ o0) (h01 : o0 < o1)
    (hsym : ∀ x, x < segments + 1 →
      T.sin (((segments - x : ℕ) : ℚ) / (segments : ℚ) * 2 * T.pi)
        = - T.sin (((x : ℕ) : ℚ) / (segments : ℚ) * 2 * T.pi))
    (hsin0 : T.sin (((0 : ℕ) : ℚ) / (segments : ℚ) * 2 * T.pi) = 0) :
    ((calculateNotchGeometry T { p with offset := o0 } segments).error =
        some "Geometry Error: Pipes do not intersect." →
      (calculateNotchGeometry T { p with offset := o1 } segments).error =
        some "Geometry Error: Pipes do not intersect.") ∧
    (∀ o : ℚ, p.d1 / 2 + 1 ≤ o →
      (calculateNotchGeometry T { p with offset := o } segments).error =
        some "Geometry Error: Pipes do not intersect.") := by
  have hRchange : ∀ (o : ℚ) (z : ℕ), meshTermAt T { p with offset := o } segments z
      = (p.d1 / 2) ^ 2 -
        ((if p.calcByID then p.d2 / 2 else p.d2 / 2 - p.thickness) *
          T.sin (((z : ℚ) / (segments : ℚ)) * 2 * T.pi) + o) ^ 2 := fun o z => rfl
  constructor
  · intro herr
    have hbad := (notchError_noIntersect_iff T { p with offset := o0 } segments hd1 hd2).mp herr
    rw [meshNoIntersect_iff] at hbad
    obtain ⟨x, hx, hlt⟩ := hbad
    apply (notchError_noIntersect_iff T { p with offset := o1 } segments hd1 hd2).mpr
    rw [meshNoIntersect_iff]
    rw [hRchange o0 x] at hlt
    have halg := offset_monotone_alg ((p.d1 / 2) ^ 2)
      ((if p.calcByID then p.d2 / 2 else p.d2 / 2 - p.thickness) *
        T.sin (((x : ℚ) / (segments : ℚ)) * 2 * T.pi)) o0 o1 h0 h01 hlt
    by_cases hc : 0 ≤ (if p.calcByID then p.d2 / 2 else p.d2 / 2 - p.thickness) *
        T.sin (((x : ℚ) / (segments : ℚ)) * 2 * T.pi) + o0
    · exact ⟨x, hx, by rw [hRchange o1 x]; exact halg.1 hc⟩
    · push_neg at hc
      refine ⟨segments - x, Nat.lt_succ_of_le (Nat.sub_le segments x), ?_⟩
      rw [hRchange o1 (segments - x), hsym x hx]
      have hconv : ((if p.calcByID then p.d2 / 2 else p.d2 / 2 - p.thickness) *
            -T.sin (((x : ℚ) / (segments : ℚ)) * 2 * T.pi) + o1)
          = (-((if p.calcByID then p.d2 / 2 else p.d2 / 2 - p.thickness) *
            T.sin (((x : ℚ) / (segments : ℚ)) * 2 * T.pi)) + o1) := by ring
      rw [hconv]
      exact halg.2 hc
  · intro o hoLarge
    apply (notchError_noIntersect_iff T { p with offset := o } segments hd1 hd2).mpr
    rw [meshNoIntersect_iff]
    refine ⟨0, Nat.succ_pos segments, ?_⟩
    rw [hRchange o 0, hsin0, mul_zero, zero_add]
    have h1 : (p.d1 / 2 + 1) ^ 2 ≤ o ^ 2 := by
      nlinarith [mul_nonneg (by linarith : (0 : ℚ) ≤ o - (p.d1 / 2 + 1))
        (by linarith : (0 : ℚ) ≤ o + (p.d1 / 2 + 1))]
    nlinarith [h1, hd1]

/-- A computable trig instance whose sine samples over a 2-segment sweep are
odd-symmetric about the rational pi stand-in 3 (so `sin(2*pi - a) = -sin a`
holds at every sample) and whose sine vanishes at 0. -/
def oddTrig : Trig :=
  { pi := 3
    sin := fun q => if q = 3 then 0 else if q < 3 then q else q - 6
    cos := fun q => (q - 3) ^ 2
    tan := fun q => q
    sqrt := fun q => q
    atan2 := fun _ _ => 0 }

/-- Witness for C6 at the default parameters, `segments = 2`, offsets
`1 < 2`, on the symmetric computable trig instance. -/
theorem noIntersect_monotone_in_offset_witness :
    ((calculateNotchGeometry oddTrig { defaultParams with offset := 1 } 2).error =
        some "Geometry Error: Pipes do not intersect." →
      (calculateNotchGeometry oddTrig { defaultParams with offset := 2 } 2).error =
        some "Geometry Error: Pipes do not intersect.") ∧
    (∀ o : ℚ, defaultParams.d1 / 2 + 1 ≤ o →
      (calculateNotchGeometry oddTrig { defaultParams with offset := o } 2).error =
        some "Geometry Error: Pipes do not intersect.") :=
  noIntersect_monotone_in_offset oddTrig defaultParams 2 1 2
    (by with_unfolding_all decide) (by with_unfolding_all decide)
    (by with_unfolding_all decide) (by with_unfolding_all decide)
    (by with_unfolding_all decide) (by with_unfolding_all decide)

/-! ### C7 -/

/-- C7.  With `offset = 0`, `weldingGap = 0` and `startAngle = 0`, and trig
samples with the real sine/cosine symmetries `sin(2*pi - a) = -sin a` and
`cos(2*pi - a) = cos a` over the sweep (supplied as hypotheses on the
abstract trig), the branch-contour depth of `calculatePipe2D` is an even
function of the angular position: sample `steps - i` carries the same raw
`y` as sample `i`, including the skip decision (and the shared normalization
then shifts all retained `y` by one constant, preserving the equality in the
final contour). -/
theorem pipe2D_depth_symmetric (T : Trig) (p : PipeParameters) (steps i : ℕ)
    (hi : i ≤ steps) (hoff : p.offset = 0) (hgap : p.weldingGap = 0)
    (hstart : p.startAngle = 0)
    (hsin : T.sin (((steps - i : ℕ) : ℚ) / (steps : ℚ) * 2 * T.pi)
      = - T.sin (((i : ℕ) : ℚ) / (steps : ℚ) * 2 * T.pi))
    (hcos : T.cos (((steps - i : ℕ) : ℚ) / (steps : ℚ) * 2 * T.pi)
      = T.cos (((i : ℕ) : ℚ) / (steps : ℚ) * 2 * T.pi)) :
    (pipe2DRawSample T p steps (steps - i)).map Point2D.y
      = (pipe2DRawSample T p steps i).map Point2D.y := by
  have hrad : degToRad T p.startAngle = 0 := by
    rw [hstart]
    unfold degToRad
    rw [zero_mul, zero_div]
  have hterm : pipe2DTermAt T p steps (steps - i) = pipe2DTermAt T p steps i := by
    unfold pipe2DTermAt
    dsimp only
    rw [hrad, add_zero, add_zero, hsin, hoff]
    ring
  unfold pipe2DRawSample
  dsimp only
  rw [hterm, hrad]
  simp only [add_zero]
  rw [hcos]
  split_ifs <;> rfl

/-- Witness for C7 at the default parameters (offset, gap and start angle all
zero), `steps = 4`, `i = 1`, on a trig instance with the required sample
symmetries. -/
theorem pipe2D_depth_symmetric_witness :
    (pipe2DRawSample oddTrig defaultParams 4 (4 - 1)).map Point2D.y
      = (pipe2DRawSample oddTrig defaultParams 4 1).map Point2D.y :=
  pipe2D_depth_symmetric oddTrig defaultParams 4 1
    (by with_unfolding_all decide) (by with_unfolding_all decide)
    (by with_unfolding_all decide) (by with_unfolding_all decide)
    (by with_unfolding_all decide) (by with_unfolding_all decide)

/-! ### C8 -/

/-- C8.  The hole template never reads `calcByID`: two parameter records that
differ only in that flag produce identical `calculateUnrolledPoints` results
for the `'hole'` kind, because `calculateHole2D` always intersects with
`R2_hole = R2_inner = d2/2 - thickness`. -/
theorem hole_template_independent_of_calcByID (T : Trig) (p : PipeParameters) (b : Bool) :
    calculateUnrolledPoints T { p with calcByID := b } TemplateKind.hole
      = calculateUnrolledPoints T p TemplateKind.hole := rfl

/-! ### C9 -/

/-- C9.  For a non-empty point list with `closed = true`, `addPolyline`
emits one `VERTEX` per supplied point plus exactly one extra `VERTEX` if and
only if the distance between the first and last points exceeds `0.001`; the
extra vertex duplicates the first point, and group code 70 carries `1`
(`0` when `closed = false`). -/
theorem addPolyline_closed_vertices (points : List Point2D) (f l : Point2D)
    (hne : points ≠ []) (hf : points.head? = some f) (hl : points.getLast? = some l) :
    countVerts (addPolyline points true)
      = points.length + (if needsClosingVert f l then 1 else 0) ∧
    (needsClosingVert f l = true → DxfPart.vert f.x f.y ∈ addPolyline points true) ∧
    (addPolyline points true).head? = some (DxfPart.polyStart 1) ∧
    (addPolyline points false).head? = some (DxfPart.polyStart 0) := by
  by_cases hc : needsClosingVert f l
  · refine ⟨?_, ?_, ?_, ?_⟩ <;>
      simp [addPolyline, countVerts, hne, hf, hl, hc, List.countP_append,
        List.countP_map, Function.comp]
  · refine ⟨?_, ?_, ?_, ?_⟩ <;>
      simp [addPolyline, countVerts, hne, hf, hl, hc, List.countP_append,
        List.countP_map, Function.comp]

/-- Witness for C9 on a concrete two-point open polyline whose endpoints are
farther apart than `0.001`. -/
theorem addPolyline_closed_vertices_witness :
    countVerts (addPolyline [⟨0, 0⟩, ⟨5, 5⟩] true)
      = ([⟨0, 0⟩, ⟨5, 5⟩] : List Point2D).length +
        (if needsClosingVert ⟨0, 0⟩ ⟨5, 5⟩ then 1 else 0) ∧
    (needsClosingVert (⟨0, 0⟩ : Point2D) ⟨5, 5⟩ = true →
      DxfPart.vert 0 0 ∈ addPolyline [⟨0, 0⟩, ⟨5, 5⟩] true) ∧
    (addPolyline [⟨0, 0⟩, ⟨5, 5⟩] true).head? = some (DxfPart.polyStart 1) ∧
    (addPolyline [⟨0, 0⟩, ⟨5, 5⟩] false).head? = some (DxfPart.polyStart 0) :=
  addPolyline_closed_vertices [⟨0, 0⟩, ⟨5, 5⟩] ⟨0, 0⟩ ⟨5, 5⟩
    (by with_unfolding_all decide) (by with_unfolding_all decide)
    (by with_unfolding_all decide)

/-! ### C10 -/

lemma dxfHeader_append_ne_empty (s : String) : dxfHeader ++ s ≠ "" := by
  intro h
  have hlen := congrArg String.length h
  rw [String.length_append] at hlen
  have hpos : 0 < dxfHeader.length := by decide
  simp only [String.length_empty] at hlen
  omega

/-- C10.  `generateDXF` signals failure by value: it returns the empty string
exactly when the geometry is unavailable (for `'pipe'`, when the notch result
is invalid or carries no contour; for either kind, when the recomputed 2D
point list is empty), and otherwise returns a string that starts with the
`SECTION`/`ENTITIES` header and ends with the `ENDSEC`/`EOF` footer (and is
in particular non-empty; the embedding is a total function, so no exception
can escape). -/
theorem generateDXF_empty_iff (fmt : ℚ → String) (T : Trig) (type : TemplateKind)
    (p : PipeParameters) :
    (generateDXF fmt T type p = "" ↔
      (type = TemplateKind.pipe ∧
        ((calculateNotchGeometry T p 360).isValid = false ∨
          (calculateNotchGeometry T p 360).contour2D = none)) ∨
      dxfPoints T type p = []) ∧
    (generateDXF fmt T type p ≠ "" →
      (∃ s, generateDXF fmt T type p = dxfHeader ++ s) ∧
      (∃ t2, generateDXF fmt T type p = t2 ++ dxfFooter)) := by
  cases type with
  | pipe =>
      unfold generateDXF
      dsimp only
      by_cases hg : (!(calculateNotchGeometry T p 360).isValid ||
          (calculateNotchGeometry T p 360).contour2D.isNone) = true
      · rw [if_pos hg]
        have hg2 : (calculateNotchGeometry T p 360).isValid = false ∨
            (calculateNotchGeometry T p 360).contour2D = none := by
          rcases Bool.or_eq_true .. |>.mp hg with h1 | h2
          · exact Or.inl (Bool.not_eq_true' .. |>.mp h1)
          · exact Or.inr (Option.isNone_iff_eq_none.mp h2)
        exact ⟨⟨fun _ => Or.inl ⟨rfl, hg2⟩, fun _ => rfl⟩, fun hne => absurd rfl hne⟩
      · rw [if_neg hg]
        have hg2 : (calculateNotchGeometry T p 360).isValid = true ∧
            (calculateNotchGeometry T p 360).contour2D ≠ none := by
          constructor
          · by_contra hv
            exact hg (by simp [Bool.eq_false_iff.mpr hv])
          · intro hcn
            exact hg (by simp [hcn])
        by_cases hp : dxfCalculatePipe2D T p = []
        · rw [if_pos hp]
          refine ⟨⟨fun _ => Or.inr hp, fun _ => rfl⟩, fun hne => absurd rfl hne⟩
        · rw [if_neg hp]
          refine ⟨⟨fun habs => absurd habs (dxfHeader_append_ne_empty _), ?_⟩, ?_⟩
          · rintro (⟨_, hbad⟩ | hbad)
            · rcases hbad with hbad | hbad
              · rw [hg2.1] at hbad
                exact absurd hbad (by simp)
              · exact absurd hbad hg2.2
            · exact absurd hbad hp
          · intro _
            exact ⟨⟨_, rfl⟩,
              ⟨dxfHeader ++ dxfBody fmt T TemplateKind.pipe p (dxfCalculatePipe2D T p),
                (String.append_assoc _ _ _).symm⟩⟩
  | hole =>
      unfold generateDXF
      dsimp only
      by_cases hp : dxfCalculateHole2D T p = []
      · rw [if_pos hp]
        refine ⟨⟨fun _ => Or.inr hp, fun _ => rfl⟩, fun hne => absurd rfl hne⟩
      · rw [if_neg hp]
        refine ⟨⟨fun habs => absurd habs (dxfHeader_append_ne_empty _), ?_⟩, ?_⟩
        · rintro (⟨hbad, _⟩ | hbad)
          · exact absurd hbad (by simp)
          · exact absurd hbad hp
        · intro _
          exact ⟨⟨_, rfl⟩,
            ⟨dxfHeader ++ dxfBody fmt T TemplateKind.hole p (dxfCalculateHole2D T p),
              (String.append_assoc _ _ _).symm⟩⟩

/-- Witness for C10 at a zero main diameter (geometry unavailable, so the
pipe export collapses to the empty string) with a trivial number formatter. -/
theorem generateDXF_empty_iff_witness :
    ((generateDXF (fun _ => "0.0000") zeroTrig TemplateKind.pipe invalidParams = "" ↔
      (TemplateKind.pipe = TemplateKind.pipe ∧
        ((calculateNotchGeometry zeroTrig invalidParams 360).isValid = false ∨
          (calculateNotchGeometry zeroTrig invalidParams 360).contour2D = none)) ∨
      dxfPoints zeroTrig TemplateKind.pipe invalidParams = []) ∧
    (generateDXF (fun _ => "0.0000") zeroTrig TemplateKind.pipe invalidParams ≠ "" →
      (∃ s, generateDXF (fun _ => "0.0000") zeroTrig TemplateKind.pipe invalidParams =
        dxfHeader ++ s) ∧
      (∃ t2, generateDXF (fun _ => "0.0000") zeroTrig TemplateKind.pipe invalidParams =
        t2 ++ dxfFooter))) :=
  generateDXF_empty_iff (fun _ => "0.0000") zeroTrig TemplateKind.pipe invalidParams

/-- Witness for the amended C5 at concrete indices on a concrete trig
instance and the inner-radius parameter mode. -/
theorem radiusSelection_amended_witness :
    meshTermAt idTrig innerModeParams 2 1 =
      specTermWith idTrig innerModeParams (specSelectedR2 innerModeParams)
        (((1 : ℕ) : ℚ) / ((2 : ℕ) : ℚ) * 2 * idTrig.pi) ∧
    pipe2DTermAt idTrig innerModeParams 4 1 =
      specTermWith idTrig innerModeParams (specSelectedR2 innerModeParams)
        (((1 : ℕ) : ℚ) / ((4 : ℕ) : ℚ) * 2 * idTrig.pi +
          degToRad idTrig innerModeParams.startAngle) ∧
    dxfPipe2DTermAt idTrig innerModeParams 2 =
      specTermWith idTrig innerModeParams (innerModeParams.d2 / 2)
        (((2 : ℕ) : ℚ) / (360 : ℚ) * 2 * idTrig.pi +
          degToRad idTrig innerModeParams.startAngle) ∧
    (meshContour idTrig innerModeParams 2).map Point2D.x =
      (List.range (2 + 1)).map
        (fun (k : ℕ) => ((k : ℚ) / ((2 : ℕ) : ℚ)) * (2 * idTrig.pi * (innerModeParams.d2 / 2))) ∧
    (∀ q : Point2D, pipe2DRawSample idTrig innerModeParams 4 1 = some q →
      q.x = ((1 : ℕ) : ℚ) / ((4 : ℕ) : ℚ) * (2 * idTrig.pi * (innerModeParams.d2 / 2))) :=
  radiusSelection_amended idTrig innerModeParams 2 1 4 1 2
